import Mathlib

set_option maxRecDepth 100000

/-!
Verification of the caching / offline-continuity core of the
monitor-stablecoins repository (the service worker in the source tree).

The definitions below are a shallow embedding of that service worker:
cache partitions are association lists from request keys to stored
responses, the named cache storage is an association list from partition
names to partitions, and each strategy handler is a pure function from an
environment (current time, network oracle, storage availability) and the
current storage to an outcome recording the resolved result, the awaited
cache writes, the writes performed by a detached background task, and
whether the handler awaited a network fetch before resolving.
-/

namespace CryptoMonitorSW

/-! ## Constants from the service worker -/

def CACHE_NAME : String := "crypto-monitor-pro-v1.0.1"

def STATIC_CACHE_NAME : String := "crypto-monitor-static-v1.0.1"

def DYNAMIC_CACHE_NAME : String := "crypto-monitor-dynamic-v1.0.1"

def API_CACHE_NAME : String := "crypto-monitor-api-v1.0.1"

def STATIC_ASSETS : List String :=
  ["/", "/index.html", "/css/styles.css", "/js/app.js", "/js/modules/api.js",
   "/js/modules/portfolio.js", "/js/modules/alerts.js", "/js/modules/charts.js",
   "/js/modules/theme.js", "/js/modules/storage.js", "/js/modules/notifications.js",
   "/js/modules/analytics.js", "/js/utils/formatters.js", "/js/utils/validators.js",
   "/manifest.json", "https://cdn.jsdelivr.net/npm/chart.js", "https://cdn.tailwindcss.com",
   "https://unpkg.com/feather-icons",
   "https://fonts.googleapis.com/css2?family=Inter:wght@300;400;500;600;700;800;900&display=swap",
   "https://fonts.googleapis.com/css2?family=JetBrains+Mono:wght@400;500;600;700&display=swap"]

def API_ENDPOINTS : List String :=
  ["https://api.coingecko.com/api/v3/global",
   "https://api.coingecko.com/api/v3/coins/markets",
   "https://api.coingecko.com/api/v3/coins/list",
   "https://api.coingecko.com/api/v3/search/trending",
   "https://api.coingecko.com/api/v3/simple/price"]

/-- `CACHE_DURATIONS` from the source: per-class max ages in milliseconds. -/
structure CacheDurations where
  static : Int
  api : Int
  dynamic : Int
  images : Int
deriving DecidableEq

def CACHE_DURATIONS : CacheDurations :=
  { static := 24 * 60 * 60 * 1000
    api := 5 * 60 * 1000
    dynamic := 60 * 60 * 1000
    images := 7 * 24 * 60 * 60 * 1000 }

/-! ## Requests and the classifier -/

/-- Embedding of the JS `String.prototype.startsWith` test. -/
def strStartsWith (s pre : String) : Bool :=
  pre.data.isPrefixOf s.data

/-- Embedding of the JS `String.prototype.endsWith` test. -/
def strEndsWith (s suf : String) : Bool :=
  List.isSuffixOf suf.data s.data

/-- Embedding of the JS `String.prototype.toLowerCase`. -/
def strToLower (s : String) : String :=
  ⟨s.data.map Char.toLower⟩

def strIncludesAux (sub : List Char) : List Char → Bool
  | [] => sub.isEmpty
  | c :: rest => sub.isPrefixOf (c :: rest) || strIncludesAux sub rest

/-- Embedding of the JS `String.prototype.includes` test used by the
classifier predicates. -/
def strIncludes (s sub : String) : Bool :=
  strIncludesAux sub.data s.data

/-- The parts of a parsed URL the service worker inspects: `href`,
`hostname`, `pathname` and the set of query-parameter names. -/
structure URL where
  href : String
  hostname : String
  pathname : String
  searchParams : List String
deriving DecidableEq

/-- A request as seen by the fetch listener: its URL and its
`destination` field (the string `document` for navigations). -/
structure Request where
  url : URL
  destination : String
deriving DecidableEq

/-- `isAPIRequest` from the source. -/
def isAPIRequest (url : URL) : Bool :=
  API_ENDPOINTS.any (fun endpoint => strStartsWith url.href endpoint) ||
  url.hostname == "api.coingecko.com" ||
  strIncludes url.pathname "/api/"

/-- `isStaticAsset` from the source. -/
def isStaticAsset (url : URL) : Bool :=
  STATIC_ASSETS.any (fun asset => url.pathname == asset) ||
  strEndsWith url.pathname ".js" ||
  strEndsWith url.pathname ".css" ||
  strEndsWith url.pathname ".html" ||
  url.hostname == "cdn.jsdelivr.net" ||
  url.hostname == "cdn.tailwindcss.com" ||
  url.hostname == "unpkg.com" ||
  url.hostname == "fonts.googleapis.com" ||
  url.hostname == "fonts.gstatic.com"

def imageExtensions : List String :=
  [".jpg", ".jpeg", ".png", ".gif", ".webp", ".svg", ".ico"]

/-- `isImageRequest` from the source; the case-insensitive extension
regex is embedded as a suffix test on the lower-cased pathname. -/
def isImageRequest (url : URL) : Bool :=
  imageExtensions.any (fun ext => strEndsWith (strToLower url.pathname) ext) ||
  url.searchParams.contains "image" ||
  strIncludes url.pathname "/images/"

/-- The four content classes of the fetch listener. -/
inductive ContentClass
  | api
  | staticAsset
  | image
  | dynamic
deriving DecidableEq

/-- The dispatch order of the fetch listener: api, then static, then
image, with dynamic as the default. -/
def classify (url : URL) : ContentClass :=
  if isAPIRequest url then .api
  else if isStaticAsset url then .staticAsset
  else if isImageRequest url then .image
  else .dynamic

/-! ## Responses, caches and the named cache storage -/

/-- Bodies of responses the worker handles: opaque payloads from the
network or a cache, the JSON offline-error object built by the api
handler, and the literal text bodies of the other fallbacks. -/
inductive RespBody
  | payload (s : String)
  | offlineErrorJSON
  | text (s : String)
deriving DecidableEq

/-- A response: its status, body, and the value of the
`sw-cache-timestamp` header when present (epoch milliseconds). -/
structure Response where
  status : Nat
  body : RespBody
  timestamp : Option Int
deriving DecidableEq

/-- `response.ok`: status in the range 200 to 299. -/
def Response.ok (r : Response) : Bool :=
  decide (200 ≤ r.status ∧ r.status < 300)

/-- The structured offline fallback built by the api handler: the JSON
error object with HTTP status 503. -/
def offlineAPIFallback : Response :=
  { status := 503, body := .offlineErrorJSON, timestamp := none }

/-- A cache partition: an association list from request keys (hrefs) to
stored responses. -/
abbrev Cache := List (String × Response)

/-- `cache.match(request)`. -/
def Cache.matchReq (c : Cache) (key : String) : Option Response :=
  (c.find? (fun p => p.1 == key)).map (fun p => p.2)

/-- `cache.put(request, response)`: overwrite any entry for the key. -/
def Cache.put (c : Cache) (key : String) (r : Response) : Cache :=
  (key, r) :: c.filter (fun p => p.1 != key)

/-- The named cache storage: partition name to partition contents. -/
abbrev CacheStorage := List (String × Cache)

/-- `caches.open(name)` on the data: the named partition, or a fresh
empty one. -/
def openCache : CacheStorage → String → Cache
  | [], _ => []
  | p :: rest, name => if p.1 == name then p.2 else openCache rest name

/-- Replace (or create) the named partition. -/
def putStore : CacheStorage → String → Cache → CacheStorage
  | [], name, c => [(name, c)]
  | p :: rest, name, c =>
    if p.1 == name then (name, c) :: rest else p :: putStore rest name c

/-- One `cache.put` performed against a named partition. -/
structure Write where
  cacheName : String
  key : String
  response : Response
deriving DecidableEq

def applyWrite (s : CacheStorage) (w : Write) : CacheStorage :=
  putStore s w.cacheName (Cache.put (openCache s w.cacheName) w.key w.response)

def applyWrites (s : CacheStorage) (ws : List Write) : CacheStorage :=
  ws.foldl applyWrite s

/-! ## The execution environment and handler outcomes -/

/-- The environment of one handler run: the current time, the network
oracle (`none` models a fetch that throws), and whether the cache
backing store opens at all (`false` models `caches.open` rejecting). -/
structure Env where
  now : Int
  fetchResult : String → Option Response
  storageAvailable : Bool

/-- What a handler promise settles to: an actual response, a resolution
with no response at all (`undefined`), or a rejection. -/
inductive HandlerResult
  | resp (r : Response)
  | noResponse
  | rejected
deriving DecidableEq

/-- The observable outcome of one handler run. -/
structure Outcome where
  result : HandlerResult
  writes : List Write
  bgWrites : List Write
  blockingFetch : Bool
  spawnedBackgroundUpdate : Bool
deriving DecidableEq

/-- `isCacheExpired` from the source: a marker-less response is always
expired, otherwise expired when its age exceeds `maxAge`. -/
def isCacheExpired (now : Int) (response : Response) (maxAge : Int) : Bool :=
  match response.timestamp with
  | none => true
  | some t => decide (now - t > maxAge)

/-- `updateAPICache` from the source: the detached background refresh of
one api entry; stores a re-stamped copy only on an ok network response,
otherwise does nothing (errors are logged, not surfaced). -/
def updateAPICache (env : Env) (reqUrl : String) : List Write :=
  match env.fetchResult reqUrl with
  | some networkResponse =>
    if networkResponse.ok then
      [{ cacheName := API_CACHE_NAME, key := reqUrl,
         response := { networkResponse with timestamp := some env.now } }]
    else []
  | none => []

/-- The try/catch tail of `handleAPIRequest`: synchronous network fetch,
store a stamped copy on ok, fall back to the cached response (possibly
stale) or the structured offline payload on failure. -/
def handleAPIRequestNetwork (env : Env) (reqUrl : String)
    (cachedResponse : Option Response) : Outcome :=
  match env.fetchResult reqUrl with
  | some networkResponse =>
    if networkResponse.ok then
      { result := .resp networkResponse
        writes := [{ cacheName := API_CACHE_NAME, key := reqUrl,
                     response := { networkResponse with timestamp := some env.now } }]
        bgWrites := [], blockingFetch := true, spawnedBackgroundUpdate := false }
    else
      { result := .resp networkResponse, writes := [], bgWrites := []
        blockingFetch := true, spawnedBackgroundUpdate := false }
  | none =>
    match cachedResponse with
    | some c =>
      { result := .resp c, writes := [], bgWrites := []
        blockingFetch := true, spawnedBackgroundUpdate := false }
    | none =>
      { result := .resp offlineAPIFallback, writes := [], bgWrites := []
        blockingFetch := true, spawnedBackgroundUpdate := false }

/-- `handleAPIRequest` from the source. `caches.open(API_CACHE_NAME)` is
awaited outside any try block, so an unavailable store rejects the whole
handler. A present, unexpired entry is returned without awaiting the
network while `updateAPICache` runs detached. -/
def handleAPIRequest (env : Env) (req : Request) (s : CacheStorage) : Outcome :=
  if !env.storageAvailable then
    { result := .rejected, writes := [], bgWrites := []
      blockingFetch := false, spawnedBackgroundUpdate := false }
  else
    let cache := openCache s API_CACHE_NAME
    match Cache.matchReq cache req.url.href with
    | some cachedResponse =>
      if !(isCacheExpired env.now cachedResponse CACHE_DURATIONS.api) then
        { result := .resp cachedResponse, writes := []
          bgWrites := updateAPICache env req.url.href
          blockingFetch := false, spawnedBackgroundUpdate := true }
      else
        handleAPIRequestNetwork env req.url.href (some cachedResponse)
    | none => handleAPIRequestNetwork env req.url.href none

/-- `handleStaticAsset` from the source: pure cache-first with no age
check; on network failure a document request falls back to the cached
`/index.html` (resolving to nothing when that entry is absent), any
other request gets a 503 text response. -/
def handleStaticAsset (env : Env) (req : Request) (s : CacheStorage) : Outcome :=
  if !env.storageAvailable then
    { result := .rejected, writes := [], bgWrites := []
      blockingFetch := false, spawnedBackgroundUpdate := false }
  else
    let cache := openCache s STATIC_CACHE_NAME
    match Cache.matchReq cache req.url.href with
    | some cachedResponse =>
      { result := .resp cachedResponse, writes := [], bgWrites := []
        blockingFetch := false, spawnedBackgroundUpdate := false }
    | none =>
      match env.fetchResult req.url.href with
      | some networkResponse =>
        if networkResponse.ok then
          { result := .resp networkResponse
            writes := [{ cacheName := STATIC_CACHE_NAME, key := req.url.href,
                         response := networkResponse }]
            bgWrites := [], blockingFetch := true, spawnedBackgroundUpdate := false }
        else
          { result := .resp networkResponse, writes := [], bgWrites := []
            blockingFetch := true, spawnedBackgroundUpdate := false }
      | none =>
        if req.destination == "document" then
          match Cache.matchReq cache "/index.html" with
          | some fallback =>
            { result := .resp fallback, writes := [], bgWrites := []
              blockingFetch := true, spawnedBackgroundUpdate := false }
          | none =>
            { result := .noResponse, writes := [], bgWrites := []
              blockingFetch := true, spawnedBackgroundUpdate := false }
        else
          { result := .resp { status := 503, body := .text "Asset not available offline",
                              timestamp := none }
            writes := [], bgWrites := [], blockingFetch := true
            spawnedBackgroundUpdate := false }

/-- The try/catch tail of `handleImageRequest`. -/
def handleImageRequestNetwork (env : Env) (reqUrl : String)
    (cachedResponse : Option Response) : Outcome :=
  match env.fetchResult reqUrl with
  | some networkResponse =>
    if networkResponse.ok then
      { result := .resp networkResponse
        writes := [{ cacheName := DYNAMIC_CACHE_NAME, key := reqUrl,
                     response := { networkResponse with timestamp := some env.now } }]
        bgWrites := [], blockingFetch := true, spawnedBackgroundUpdate := false }
    else
      { result := .resp networkResponse, writes := [], bgWrites := []
        blockingFetch := true, spawnedBackgroundUpdate := false }
  | none =>
    match cachedResponse with
    | some c =>
      { result := .resp c, writes := [], bgWrites := []
        blockingFetch := true, spawnedBackgroundUpdate := false }
    | none =>
      { result := .resp { status := 404, body := .text "", timestamp := none }
        writes := [], bgWrites := [], blockingFetch := true
        spawnedBackgroundUpdate := false }

/-- `handleImageRequest` from the source. It opens `DYNAMIC_CACHE_NAME`
(not a partition of its own) and applies the 7-day image max age. -/
def handleImageRequest (env : Env) (req : Request) (s : CacheStorage) : Outcome :=
  if !env.storageAvailable then
    { result := .rejected, writes := [], bgWrites := []
      blockingFetch := false, spawnedBackgroundUpdate := false }
  else
    let cache := openCache s DYNAMIC_CACHE_NAME
    match Cache.matchReq cache req.url.href with
    | some cachedResponse =>
      if !(isCacheExpired env.now cachedResponse CACHE_DURATIONS.images) then
        { result := .resp cachedResponse, writes := [], bgWrites := []
          blockingFetch := false, spawnedBackgroundUpdate := false }
      else
        handleImageRequestNetwork env req.url.href (some cachedResponse)
    | none => handleImageRequestNetwork env req.url.href none

/-- The catch block of `handleDynamicRequest`: `caches.open` is awaited
inside it, so an unavailable store rejects; otherwise fall back to the
cached entry, then to the cached `/index.html` for documents (resolving
to nothing when absent), then to a 503 text response. -/
def handleDynamicCatch (env : Env) (req : Request) (s : CacheStorage) : Outcome :=
  if !env.storageAvailable then
    { result := .rejected, writes := [], bgWrites := []
      blockingFetch := true, spawnedBackgroundUpdate := false }
  else
    match Cache.matchReq (openCache s DYNAMIC_CACHE_NAME) req.url.href with
    | some cachedResponse =>
      { result := .resp cachedResponse, writes := [], bgWrites := []
        blockingFetch := true, spawnedBackgroundUpdate := false }
    | none =>
      if req.destination == "document" then
        match Cache.matchReq (openCache s STATIC_CACHE_NAME) "/index.html" with
        | some fallback =>
          { result := .resp fallback, writes := [], bgWrites := []
            blockingFetch := true, spawnedBackgroundUpdate := false }
        | none =>
          { result := .noResponse, writes := [], bgWrites := []
            blockingFetch := true, spawnedBackgroundUpdate := false }
      else
        { result := .resp { status := 503, body := .text "Content not available offline",
                            timestamp := none }
          writes := [], bgWrites := [], blockingFetch := true
          spawnedBackgroundUpdate := false }

/-- `handleDynamicRequest` from the source: network-first. An ok network
response is stored (unstamped) in the dynamic partition; a failed fetch,
or a `caches.open` rejection inside the try block, lands in the catch
block. A non-ok network response is returned without touching the store. -/
def handleDynamicRequest (env : Env) (req : Request) (s : CacheStorage) : Outcome :=
  match env.fetchResult req.url.href with
  | some networkResponse =>
    if networkResponse.ok then
      if env.storageAvailable then
        { result := .resp networkResponse
          writes := [{ cacheName := DYNAMIC_CACHE_NAME, key := req.url.href,
                       response := networkResponse }]
          bgWrites := [], blockingFetch := true, spawnedBackgroundUpdate := false }
      else handleDynamicCatch env req s
    else
      { result := .resp networkResponse, writes := [], bgWrites := []
        blockingFetch := true, spawnedBackgroundUpdate := false }
  | none => handleDynamicCatch env req s

/-- The fetch listener: non-http requests pass through untouched, the
rest are dispatched in the order api, static, image, dynamic. -/
def handleFetchEvent (env : Env) (req : Request) (s : CacheStorage) : Option Outcome :=
  if !(strStartsWith req.url.href "http") then none
  else if isAPIRequest req.url then some (handleAPIRequest env req s)
  else if isStaticAsset req.url then some (handleStaticAsset env req s)
  else if isImageRequest req.url then some (handleImageRequest env req s)
  else some (handleDynamicRequest env req s)

/-! ## Command channel -/

/-- The fetch phase of `cache.addAll(urls)`: all listed URLs must fetch
with an ok response, otherwise the whole batch rejects and nothing is
stored. -/
def addAllFetch (env : Env) : List String → Option (List (String × Response))
  | [] => some []
  | u :: rest =>
    match env.fetchResult u with
    | some r =>
      if r.ok then (addAllFetch env rest).map (fun rs => (u, r) :: rs)
      else none
    | none => none

def storeAll (rs : List (String × Response)) (c : Cache) : Cache :=
  rs.foldl (fun c ur => Cache.put c ur.1 ur.2) c

/-- `handleCacheUpdate` from the source: open the named partition and
run `cache.addAll(urls)`; any error is caught and logged, leaving the
storage unchanged. -/
def handleCacheUpdate (env : Env) (cacheName : String) (urls : List String)
    (s : CacheStorage) : CacheStorage :=
  if !env.storageAvailable then s
  else
    match addAllFetch env urls with
    | some rs => putStore s cacheName (storeAll rs (openCache s cacheName))
    | none => s

/-- `handlePrefetchUrls` from the source: per-URL fetch into the dynamic
partition, storing the unmodified response only when ok; per-URL errors
are caught and the loop continues. -/
def handlePrefetchUrls (env : Env) (urls : List String) : List Write :=
  if !env.storageAvailable then []
  else
    urls.filterMap (fun url =>
      match env.fetchResult url with
      | some response =>
        if response.ok then
          some { cacheName := DYNAMIC_CACHE_NAME, key := url, response := response }
        else none
      | none => none)

/-! ## Periodic maintenance sweep -/

/-- One partition pass of the hourly cleanup: delete every entry that
`isCacheExpired` reports expired against `CACHE_DURATIONS.api` — the
source applies the api duration to both swept partitions. -/
def cleanupCache (now : Int) (c : Cache) : Cache :=
  c.filter (fun p => !(isCacheExpired now p.2 CACHE_DURATIONS.api))

/-- The hourly `setInterval` sweep body: iterate over
`[API_CACHE_NAME, DYNAMIC_CACHE_NAME]`, deleting expired entries; a
storage failure is caught and leaves everything unchanged. -/
def periodicCleanup (env : Env) (s : CacheStorage) : CacheStorage :=
  if !env.storageAvailable then s
  else
    let s1 := putStore s API_CACHE_NAME (cleanupCache env.now (openCache s API_CACHE_NAME))
    putStore s1 DYNAMIC_CACHE_NAME (cleanupCache env.now (openCache s1 DYNAMIC_CACHE_NAME))

/-! ## Concrete instances used to evaluate the model -/

/-- An api-class URL (matches the coingecko host and an api endpoint). -/
def urlApi : URL :=
  { href := "https://api.coingecko.com/api/v3/global"
    hostname := "api.coingecko.com", pathname := "/api/v3/global", searchParams := [] }

/-- A static-class URL (a script path). -/
def urlStatic : URL :=
  { href := "https://example.com/js/app.js"
    hostname := "example.com", pathname := "/js/app.js", searchParams := [] }

/-- An image-class URL (an image extension). -/
def urlImage : URL :=
  { href := "https://example.com/photo.png"
    hostname := "example.com", pathname := "/photo.png", searchParams := [] }

/-- A URL matching none of the three predicates. -/
def urlPlain : URL :=
  { href := "https://example.com/data"
    hostname := "example.com", pathname := "/data", searchParams := [] }

def reqApi : Request := { url := urlApi, destination := "" }

def reqImage : Request := { url := urlImage, destination := "" }

def reqPlainDoc : Request := { url := urlPlain, destination := "document" }

def respStale : Response := { status := 200, body := .payload "stale", timestamp := some 0 }

def respFreshNet : Response := { status := 200, body := .payload "fresh", timestamp := none }

def respYoung : Response := { status := 200, body := .payload "young", timestamp := some 0 }

/-- An environment ten minutes after epoch whose network always fails. -/
def envOffline : Env :=
  { now := 600000, fetchResult := fun _ => none, storageAvailable := true }

/-- An environment ten minutes after epoch whose network always returns
`respFreshNet`. -/
def envOnline : Env :=
  { now := 600000, fetchResult := fun _ => some respFreshNet, storageAvailable := true }

/-- An online environment whose cache backing store cannot open. -/
def envNoStorage : Env :=
  { now := 600000, fetchResult := fun _ => some respFreshNet, storageAvailable := false }

/-- A storage holding one ten-minute-old marked entry in the dynamic
partition. -/
def storeYoungDynamic : CacheStorage :=
  [(DYNAMIC_CACHE_NAME, [("https://example.com/page", respYoung)])]

/-- A storage holding one stale api entry for `urlApi`. -/
def storeStaleApi : CacheStorage :=
  [(API_CACHE_NAME, [(urlApi.href, respStale)])]

/-- A storage holding one fresh (just written) api entry for `urlApi`. -/
def storeFreshApi : CacheStorage :=
  [(API_CACHE_NAME, [(urlApi.href, { respStale with timestamp := some 600000 })])]

def urlA : String := "https://example.com/a"

def urlB : String := "https://example.com/b"

def respB : Response := { status := 200, body := .payload "b", timestamp := none }

/-- A network on which `urlA` fails and `urlB` succeeds. -/
def envPartial : Env :=
  { now := 0
    fetchResult := fun u => if u == urlB then some respB else none
    storageAvailable := true }

/-- A network on which every fetch returns `respB`. -/
def envAllB : Env :=
  { now := 0, fetchResult := fun _ => some respB, storageAvailable := true }

/-- A non-ok (server error) network response. -/
def respNonOk : Response := { status := 500, body := .payload "err", timestamp := none }

/-- An environment whose network always returns the non-ok response. -/
def envNonOk : Env :=
  { now := 0, fetchResult := fun _ => some respNonOk, storageAvailable := true }

/-- A dynamic partition holding one entry with no freshness marker. -/
def storeUnmarkedDyn : CacheStorage :=
  [(DYNAMIC_CACHE_NAME, [("https://example.com/page", respFreshNet)])]

/-! ## Helper lemmas about the store and caches -/

theorem openCache_putStore_self (s : CacheStorage) (name : String) (c : Cache) :
    openCache (putStore s name c) name = c := by
  induction s with
  | nil => simp [putStore, openCache]
  | cons p rest ih =>
    by_cases h : p.1 = name
    · simp [putStore, h, openCache]
    · simp only [putStore, openCache]
      rw [if_neg (by simpa using h), openCache, if_neg (by simpa using h)]
      exact ih

theorem openCache_putStore_other (s : CacheStorage) (name other : String) (c : Cache)
    (h : name ≠ other) : openCache (putStore s name c) other = openCache s other := by
  induction s with
  | nil => simp [putStore, openCache, h]
  | cons p rest ih =>
    by_cases h1 : p.1 = name
    · simp only [putStore]
      rw [if_pos (by simpa using h1), openCache, if_neg (by simpa using h),
        openCache, if_neg (by simp [h1, h])]
    · simp only [putStore]
      rw [if_neg (by simpa using h1)]
      by_cases h2 : p.1 = other
      · rw [openCache, if_pos (by simpa using h2), openCache, if_pos (by simpa using h2)]
      · rw [openCache, if_neg (by simpa using h2), openCache, if_neg (by simpa using h2)]
        exact ih

theorem matchReq_put_self (c : Cache) (k : String) (r : Response) :
    Cache.matchReq (Cache.put c k r) k = some r := by
  simp [Cache.put, Cache.matchReq, List.find?]

theorem find_filter_ne (c : Cache) (k k' : String) (h : k' ≠ k) :
    (c.filter (fun p => p.1 != k)).find? (fun p => p.1 == k') =
      c.find? (fun p => p.1 == k') := by
  have hkk : ¬ k = k' := fun hh => h hh.symm
  induction c with
  | nil => rfl
  | cons p rest ih =>
    by_cases h1 : p.1 = k
    · rw [List.filter_cons_of_neg (by simp [h1]),
        List.find?_cons_of_neg _ (by simp [h1, hkk]), ih]
    · rw [List.filter_cons_of_pos (by simp [h1])]
      by_cases h2 : p.1 = k'
      · rw [List.find?_cons_of_pos _ (by simp [h2]), List.find?_cons_of_pos _ (by simp [h2])]
      · rw [List.find?_cons_of_neg _ (by simp [h2]), List.find?_cons_of_neg _ (by simp [h2]), ih]

theorem matchReq_put_other (c : Cache) (k k' : String) (r : Response) (h : k' ≠ k) :
    Cache.matchReq (Cache.put c k r) k' = Cache.matchReq c k' := by
  have hkk : ¬ k = k' := fun hh => h hh.symm
  simp only [Cache.put, Cache.matchReq]
  rw [List.find?_cons_of_neg _ (by simp [hkk]), find_filter_ne c k k' h]

theorem storeAll_match_notkey (rs : List (String × Response)) (c : Cache) (u : String)
    (h : ∀ p ∈ rs, p.1 ≠ u) : Cache.matchReq (storeAll rs c) u = Cache.matchReq c u := by
  induction rs generalizing c with
  | nil => rfl
  | cons p rest ih =>
    have hp : p.1 ≠ u := h p (List.mem_cons_self p rest)
    have hrest : ∀ q ∈ rest, q.1 ≠ u := fun q hq => h q (List.mem_cons_of_mem p hq)
    show Cache.matchReq (storeAll rest (Cache.put c p.1 p.2)) u = Cache.matchReq c u
    rw [ih _ hrest, matchReq_put_other _ _ _ _ (fun hh => hp hh.symm)]

theorem storeAll_match_mem (rs : List (String × Response)) (c : Cache) (u : String)
    (r : Response) (hmem : (u, r) ∈ rs)
    (huniq : ∀ p ∈ rs, p.1 = u → p.2 = r) :
    Cache.matchReq (storeAll rs c) u = some r := by
  induction rs generalizing c with
  | nil => cases hmem
  | cons p rest ih =>
    by_cases hrest : (u, r) ∈ rest
    · exact ih (Cache.put c p.1 p.2) hrest (fun q hq => huniq q (List.mem_cons_of_mem p hq))
    · rcases List.mem_cons.mp hmem with heq | h2
      · have hnone : ∀ q ∈ rest, q.1 ≠ u := by
          intro q hq hq1
          have hq2 := huniq q (List.mem_cons_of_mem p hq) hq1
          exact hrest (by rw [← hq1, ← hq2]; exact hq)
        show Cache.matchReq (storeAll rest (Cache.put c p.1 p.2)) u = some r
        rw [storeAll_match_notkey rest _ u hnone, ← heq, matchReq_put_self]
      · exact absurd h2 hrest

theorem addAllFetch_mem (env : Env) (urls : List String)
    (rs : List (String × Response)) (h : addAllFetch env urls = some rs) :
    ∀ p ∈ rs, env.fetchResult p.1 = some p.2 ∧ p.2.ok = true := by
  induction urls generalizing rs with
  | nil =>
    simp only [addAllFetch] at h
    cases h
    intro p hp
    cases hp
  | cons u rest ih =>
    rcases hu : env.fetchResult u with _ | r
    · simp only [addAllFetch, hu] at h
      cases h
    · simp only [addAllFetch, hu] at h
      by_cases hok : r.ok = true
      · rw [if_pos hok] at h
        rcases hrest : addAllFetch env rest with _ | rs'
        · rw [hrest] at h; cases h
        · rw [hrest] at h
          simp only [Option.map_some'] at h
          cases h
          intro p hp
          rcases List.mem_cons.mp hp with heq | h2
          · subst heq; exact ⟨hu, hok⟩
          · exact ih rs' hrest p h2
      · rw [if_neg hok] at h; cases h

theorem addAllFetch_covers (env : Env) (urls : List String)
    (rs : List (String × Response)) (h : addAllFetch env urls = some rs)
    (u : String) (hu : u ∈ urls) :
    ∃ r, env.fetchResult u = some r ∧ (u, r) ∈ rs := by
  induction urls generalizing rs with
  | nil => cases hu
  | cons v rest ih =>
    rcases hv : env.fetchResult v with _ | r
    · simp only [addAllFetch, hv] at h
      cases h
    · simp only [addAllFetch, hv] at h
      by_cases hok : r.ok = true
      · rw [if_pos hok] at h
        rcases hrest : addAllFetch env rest with _ | rs'
        · rw [hrest] at h; cases h
        · rw [hrest] at h
          simp only [Option.map_some'] at h
          cases h
          rcases List.mem_cons.mp hu with heq | h2
          · subst heq; exact ⟨r, hv, List.mem_cons_self _ _⟩
          · rcases ih rs' hrest h2 with ⟨r', hr1, hr2⟩
            exact ⟨r', hr1, List.mem_cons_of_mem _ hr2⟩
      · rw [if_neg hok] at h; cases h

theorem addAllFetch_none_of_fail (env : Env) (urls : List String) (u : String)
    (hu : u ∈ urls) (hfail : ∀ r, env.fetchResult u = some r → r.ok = false) :
    addAllFetch env urls = none := by
  induction urls with
  | nil => cases hu
  | cons v rest ih =>
    rcases List.mem_cons.mp hu with heq | h2
    · subst heq
      rcases hv : env.fetchResult u with _ | r
      · simp only [addAllFetch, hv]
      · simp only [addAllFetch, hv, hfail r hv, Bool.false_eq_true, if_false]
    · rcases hv : env.fetchResult v with _ | r
      · simp only [addAllFetch, hv]
      · by_cases hok : r.ok = true
        · rw [addAllFetch.eq_def]
          simp only [hv, if_pos hok, ih h2, Option.map_none']
        · rw [addAllFetch.eq_def]
          simp only [hv, if_neg hok]

/-- Every resolution of the api network path is an actual response. -/
theorem handleAPIRequestNetwork_resolves (env : Env) (reqUrl : String)
    (co : Option Response) :
    ∃ r, (handleAPIRequestNetwork env reqUrl co).result = .resp r := by
  rcases hf : env.fetchResult reqUrl with _ | nr
  · rcases co with _ | c
    · exact ⟨offlineAPIFallback, by simp only [handleAPIRequestNetwork, hf]⟩
    · exact ⟨c, by simp only [handleAPIRequestNetwork, hf]⟩
  · by_cases hok : nr.ok = true
    · exact ⟨nr, by simp only [handleAPIRequestNetwork, hf, if_pos hok]⟩
    · exact ⟨nr, by simp only [handleAPIRequestNetwork, hf, if_neg hok]⟩

/-- Every resolution of the image network path is an actual response. -/
theorem handleImageRequestNetwork_resolves (env : Env) (reqUrl : String)
    (co : Option Response) :
    ∃ r, (handleImageRequestNetwork env reqUrl co).result = .resp r := by
  rcases hf : env.fetchResult reqUrl with _ | nr
  · rcases co with _ | c
    · exact ⟨{ status := 404, body := .text "", timestamp := none },
        by simp only [handleImageRequestNetwork, hf]⟩
    · exact ⟨c, by simp only [handleImageRequestNetwork, hf]⟩
  · by_cases hok : nr.ok = true
    · exact ⟨nr, by simp only [handleImageRequestNetwork, hf, if_pos hok]⟩
    · exact ⟨nr, by simp only [handleImageRequestNetwork, hf, if_neg hok]⟩

/-! ## Claim theorems -/

/-- C8: classification is total and deterministic — `classify` is a pure
function from URLs to classes, so every http(s) request maps to exactly
one class — and the three predicates are evaluated in the fixed
precedence order api, static, image, with first match winning; a URL
matching none of the three predicates is classified dynamic. -/
theorem classifier_precedence_total (url : URL) :
    (isAPIRequest url = true → classify url = .api) ∧
    (isAPIRequest url = false → isStaticAsset url = true →
       classify url = .staticAsset) ∧
    (isAPIRequest url = false → isStaticAsset url = false →
       isImageRequest url = true → classify url = .image) ∧
    (isAPIRequest url = false → isStaticAsset url = false →
       isImageRequest url = false → classify url = .dynamic) :=
  ⟨fun h1 => by simp [classify, h1],
   fun h1 h2 => by simp [classify, h1, h2],
   fun h1 h2 h3 => by simp [classify, h1, h2, h3],
   fun h1 h2 h3 => by simp [classify, h1, h2, h3]⟩

/-- Witness for C8 at one concrete URL of each class. -/
theorem classifier_precedence_total_witness :
    classify urlApi = .api ∧ classify urlStatic = .staticAsset ∧
    classify urlImage = .image ∧ classify urlPlain = .dynamic :=
  ⟨(classifier_precedence_total urlApi).1 (by decide),
   (classifier_precedence_total urlStatic).2.1 (by decide) (by decide),
   (classifier_precedence_total urlImage).2.2.1 (by decide) (by decide) (by decide),
   (classifier_precedence_total urlPlain).2.2.2 (by decide) (by decide) (by decide)⟩

/-- C7: for api-class handling with an unreachable network: when no
cached entry exists the result is the structured offline payload (HTTP
status 503 carrying the offline error JSON); when a cached entry exists
— fresh or stale — that entry is returned instead of the error. -/
theorem api_offline_fallback_behavior (env : Env) (req : Request) (s : CacheStorage)
    (hst : env.storageAvailable = true)
    (hf : env.fetchResult req.url.href = none) :
    (Cache.matchReq (openCache s API_CACHE_NAME) req.url.href = none →
       (handleAPIRequest env req s).result = .resp offlineAPIFallback ∧
       offlineAPIFallback.status = 503 ∧
       offlineAPIFallback.body = RespBody.offlineErrorJSON) ∧
    (∀ c, Cache.matchReq (openCache s API_CACHE_NAME) req.url.href = some c →
       (handleAPIRequest env req s).result = .resp c) := by
  constructor
  · intro hm
    refine ⟨?_, rfl, rfl⟩
    simp [handleAPIRequest, hst, hm, handleAPIRequestNetwork, hf]
  · intro c hm
    by_cases hexp : isCacheExpired env.now c CACHE_DURATIONS.api = true
    · simp [handleAPIRequest, hst, hm, hexp, handleAPIRequestNetwork, hf]
    · simp [handleAPIRequest, hst, hm, hexp]

/-- Witness for C7: offline network against an empty api partition and
against one holding a stale entry. -/
theorem api_offline_fallback_behavior_witness :
    (handleAPIRequest envOffline reqApi []).result = .resp offlineAPIFallback ∧
    (handleAPIRequest envOffline reqApi storeStaleApi).result = .resp respStale :=
  ⟨((api_offline_fallback_behavior envOffline reqApi [] rfl rfl).1 (by decide)).1,
   (api_offline_fallback_behavior envOffline reqApi storeStaleApi rfl rfl).2
     respStale (by decide)⟩

/-- C2 counterexample: with a present-but-stale api entry and a
reachable network, the handler does not return the stale payload — it
awaits the network fetch before resolving, returns the network response,
and spawns no detached background refresh. -/
theorem api_stale_counterexample :
    isCacheExpired envOnline.now respStale CACHE_DURATIONS.api = true ∧
    (handleAPIRequest envOnline reqApi storeStaleApi).result = .resp respFreshNet ∧
    (handleAPIRequest envOnline reqApi storeStaleApi).result ≠ .resp respStale ∧
    (handleAPIRequest envOnline reqApi storeStaleApi).blockingFetch = true ∧
    (handleAPIRequest envOnline reqApi storeStaleApi).spawnedBackgroundUpdate = false := by
  decide

/-- C2 amended: a present and fresh api entry is returned immediately,
without awaiting the network, while the re-fetch (storing a re-stamped
copy on an ok response) runs as a detached background task; a present
but stale entry triggers a blocking synchronous fetch whose response is
returned, the stale entry being returned only when that fetch fails. -/
theorem api_freshness_strategy (env : Env) (req : Request) (s : CacheStorage)
    (c : Response) (hst : env.storageAvailable = true)
    (hc : Cache.matchReq (openCache s API_CACHE_NAME) req.url.href = some c) :
    (isCacheExpired env.now c CACHE_DURATIONS.api = false →
       handleAPIRequest env req s =
         { result := .resp c, writes := [],
           bgWrites := updateAPICache env req.url.href,
           blockingFetch := false, spawnedBackgroundUpdate := true }) ∧
    (isCacheExpired env.now c CACHE_DURATIONS.api = true →
       (∀ r, env.fetchResult req.url.href = some r →
          (handleAPIRequest env req s).result = .resp r ∧
          (handleAPIRequest env req s).blockingFetch = true ∧
          (handleAPIRequest env req s).spawnedBackgroundUpdate = false) ∧
       (env.fetchResult req.url.href = none →
          (handleAPIRequest env req s).result = .resp c ∧
          (handleAPIRequest env req s).blockingFetch = true)) := by
  constructor
  · intro hfresh
    simp [handleAPIRequest, hst, hc, hfresh]
  · intro hstale
    constructor
    · intro r hr
      by_cases hok : r.ok = true
      · refine ⟨?_, ?_, ?_⟩ <;>
          simp [handleAPIRequest, hst, hc, hstale, handleAPIRequestNetwork, hr, hok]
      · refine ⟨?_, ?_, ?_⟩ <;>
          simp [handleAPIRequest, hst, hc, hstale, handleAPIRequestNetwork, hr, hok]
    · intro hr
      constructor <;>
        simp [handleAPIRequest, hst, hc, hstale, handleAPIRequestNetwork, hr]

/-- Witness for C2 (amended): a fresh hit returned without blocking, and
a stale hit resolved from the network. -/
theorem api_freshness_strategy_witness :
    handleAPIRequest envOffline reqApi storeFreshApi =
      { result := .resp { respStale with timestamp := some 600000 }, writes := [],
        bgWrites := updateAPICache envOffline reqApi.url.href,
        blockingFetch := false, spawnedBackgroundUpdate := true } ∧
    (handleAPIRequest envOnline reqApi storeStaleApi).result = .resp respFreshNet :=
  ⟨(api_freshness_strategy envOffline reqApi storeFreshApi
      { respStale with timestamp := some 600000 } rfl (by decide)).1 (by decide),
   (((api_freshness_strategy envOnline reqApi storeStaleApi respStale rfl
      (by decide)).2 (by decide)).1 respFreshNet rfl).1⟩

/-- C4 counterexample: with the backing store unavailable but the
network reachable and returning an ok response, the api handler rejects
instead of degrading to network-only. -/
theorem storage_failure_counterexample :
    (handleAPIRequest envNoStorage reqApi []).result = .rejected ∧
    envNoStorage.fetchResult reqApi.url.href = some respFreshNet ∧
    respFreshNet.ok = true := by
  decide

/-- C4 amended: when the cache backing store cannot open, the api,
static and image handlers reject outright (the request fails); the
dynamic handler also rejects, except that a non-ok network response is
still returned because it never touches the store. No handler degrades
to network-only. -/
theorem storage_unavailable_behavior (env : Env) (req : Request) (s : CacheStorage)
    (hst : env.storageAvailable = false) :
    (handleAPIRequest env req s).result = .rejected ∧
    (handleStaticAsset env req s).result = .rejected ∧
    (handleImageRequest env req s).result = .rejected ∧
    (env.fetchResult req.url.href = none →
       (handleDynamicRequest env req s).result = .rejected) ∧
    (∀ r, env.fetchResult req.url.href = some r → r.ok = true →
       (handleDynamicRequest env req s).result = .rejected) ∧
    (∀ r, env.fetchResult req.url.href = some r → r.ok = false →
       (handleDynamicRequest env req s).result = .resp r) := by
  refine ⟨by simp [handleAPIRequest, hst], by simp [handleStaticAsset, hst],
    by simp [handleImageRequest, hst], ?_, ?_, ?_⟩
  · intro hf
    simp [handleDynamicRequest, hf, handleDynamicCatch, hst]
  · intro r hr hok
    simp [handleDynamicRequest, hr, hok, hst, handleDynamicCatch]
  · intro r hr hok
    simp [handleDynamicRequest, hr, hok]

/-- Witness for C4 (amended) at a concrete unavailable-store run. -/
theorem storage_unavailable_behavior_witness :
    (handleStaticAsset envNoStorage reqApi []).result = .rejected ∧
    (handleDynamicRequest envNoStorage reqPlainDoc []).result = .rejected :=
  ⟨(storage_unavailable_behavior envNoStorage reqApi [] rfl).2.1,
   (storage_unavailable_behavior envNoStorage reqPlainDoc [] rfl).2.2.2.2.1
     respFreshNet rfl (by decide)⟩

/-- C3 counterexample: a document request whose network fetch fails,
whose cache lookup misses and whose static partition lacks the
`/index.html` fallback resolves to no response at all — the request goes
unanswered. Shown for both the dynamic and the static handler. -/
theorem unanswered_request_counterexample :
    (handleDynamicRequest envOffline reqPlainDoc []).result = .noResponse ∧
    (handleStaticAsset envOffline { url := urlStatic, destination := "document" } []).result
      = .noResponse := by
  decide

/-- C3 amended: with the store available, the api and image handlers
always resolve to a response, and the static and dynamic handlers
resolve to no response only on the single degenerate path: a
document-destination request whose network fetch fails, whose entry is
not cached, and whose static partition lacks `/index.html`. -/
theorem response_guarantee_characterization (env : Env) (req : Request)
    (s : CacheStorage) (hst : env.storageAvailable = true) :
    ((handleAPIRequest env req s).result ≠ .noResponse) ∧
    ((handleImageRequest env req s).result ≠ .noResponse) ∧
    ((handleStaticAsset env req s).result = .noResponse →
       req.destination = "document" ∧ env.fetchResult req.url.href = none ∧
       Cache.matchReq (openCache s STATIC_CACHE_NAME) req.url.href = none ∧
       Cache.matchReq (openCache s STATIC_CACHE_NAME) "/index.html" = none) ∧
    ((handleDynamicRequest env req s).result = .noResponse →
       req.destination = "document" ∧ env.fetchResult req.url.href = none ∧
       Cache.matchReq (openCache s DYNAMIC_CACHE_NAME) req.url.href = none ∧
       Cache.matchReq (openCache s STATIC_CACHE_NAME) "/index.html" = none) := by
  refine ⟨?_, ?_, ?_, ?_⟩
  · rcases hm : Cache.matchReq (openCache s API_CACHE_NAME) req.url.href with _ | c
    · obtain ⟨r, hr⟩ := handleAPIRequestNetwork_resolves env req.url.href none
      simp [handleAPIRequest, hst, hm, hr]
    · by_cases hexp : isCacheExpired env.now c CACHE_DURATIONS.api = true
      · obtain ⟨r, hr⟩ := handleAPIRequestNetwork_resolves env req.url.href (some c)
        simp [handleAPIRequest, hst, hm, hexp, hr]
      · simp [handleAPIRequest, hst, hm, hexp]
  · rcases hm : Cache.matchReq (openCache s DYNAMIC_CACHE_NAME) req.url.href with _ | c
    · obtain ⟨r, hr⟩ := handleImageRequestNetwork_resolves env req.url.href none
      simp [handleImageRequest, hst, hm, hr]
    · by_cases hexp : isCacheExpired env.now c CACHE_DURATIONS.images = true
      · obtain ⟨r, hr⟩ := handleImageRequestNetwork_resolves env req.url.href (some c)
        simp [handleImageRequest, hst, hm, hexp, hr]
      · simp [handleImageRequest, hst, hm, hexp]
  · intro hno
    rcases hm : Cache.matchReq (openCache s STATIC_CACHE_NAME) req.url.href with _ | c
    · rcases hf : env.fetchResult req.url.href with _ | nr
      · by_cases hdoc : req.destination = "document"
        · rcases hidx : Cache.matchReq (openCache s STATIC_CACHE_NAME) "/index.html"
            with _ | fb
          · exact ⟨hdoc, rfl, rfl, rfl⟩
          · exact absurd hno
              (by simp [handleStaticAsset, hst, hm, hf, beq_iff_eq, hdoc, hidx])
        · exact absurd hno
            (by simp [handleStaticAsset, hst, hm, hf, beq_iff_eq, hdoc])
      · by_cases hok : nr.ok = true
        · exact absurd hno (by simp [handleStaticAsset, hst, hm, hf, hok])
        · exact absurd hno (by simp [handleStaticAsset, hst, hm, hf, hok])
    · exact absurd hno (by simp [handleStaticAsset, hst, hm])
  · intro hno
    rcases hf : env.fetchResult req.url.href with _ | nr
    · rcases hm : Cache.matchReq (openCache s DYNAMIC_CACHE_NAME) req.url.href with _ | c
      · by_cases hdoc : req.destination = "document"
        · rcases hidx : Cache.matchReq (openCache s STATIC_CACHE_NAME) "/index.html"
            with _ | fb
          · exact ⟨hdoc, rfl, rfl, rfl⟩
          · exact absurd hno (by
              simp [handleDynamicRequest, handleDynamicCatch, hst, hm, hf,
                beq_iff_eq, hdoc, hidx])
        · exact absurd hno (by
            simp [handleDynamicRequest, handleDynamicCatch, hst, hm, hf,
              beq_iff_eq, hdoc])
      · exact absurd hno
          (by simp [handleDynamicRequest, handleDynamicCatch, hst, hm, hf])
    · by_cases hok : nr.ok = true
      · exact absurd hno (by simp [handleDynamicRequest, hst, hf, hok])
      · exact absurd hno (by simp [handleDynamicRequest, hst, hf, hok])

/-- Witness for C3 (amended): the api handler answers offline with an
empty store, and the degenerate unanswered path of the dynamic handler
satisfies the characterizing conditions. -/
theorem response_guarantee_characterization_witness :
    (handleAPIRequest envOffline reqApi []).result ≠ .noResponse ∧
    (reqPlainDoc.destination = "document" ∧
     envOffline.fetchResult reqPlainDoc.url.href = none ∧
     Cache.matchReq (openCache ([] : CacheStorage) DYNAMIC_CACHE_NAME)
       reqPlainDoc.url.href = none ∧
     Cache.matchReq (openCache ([] : CacheStorage) STATIC_CACHE_NAME)
       "/index.html" = none) :=
  ⟨(response_guarantee_characterization envOffline reqApi [] rfl).1,
   (response_guarantee_characterization envOffline reqPlainDoc [] rfl).2.2.2
     (by decide)⟩

/-- The catch block of the dynamic handler performs no writes. -/
theorem handleDynamicCatch_writes (env : Env) (req : Request) (s : CacheStorage) :
    (handleDynamicCatch env req s).writes = [] := by
  unfold handleDynamicCatch
  split
  · rfl
  · split
    · rfl
    · split
      · split <;> rfl
      · rfl

/-- The background refresh stores only ok responses. -/
theorem updateAPICache_ok (env : Env) (u : String) :
    (updateAPICache env u).all (fun w => w.response.ok) = true := by
  rcases hf : env.fetchResult u with _ | r
  · simp [updateAPICache, hf]
  · by_cases hok : r.ok = true
    · simp only [updateAPICache, hf, if_pos hok, List.all_cons, List.all_nil,
        Bool.and_true]
      exact hok
    · simp [updateAPICache, hf, hok]

/-- The api network path stores only ok responses and never spawns
background writes. -/
theorem handleAPIRequestNetwork_writes_ok (env : Env) (u : String)
    (co : Option Response) :
    ((handleAPIRequestNetwork env u co).writes.all (fun w => w.response.ok) = true) ∧
    (handleAPIRequestNetwork env u co).bgWrites = [] := by
  rcases hf : env.fetchResult u with _ | nr
  · rcases co with _ | c <;> simp [handleAPIRequestNetwork, hf]
  · by_cases hok : nr.ok = true
    · constructor
      · simp only [handleAPIRequestNetwork, hf, if_pos hok, List.all_cons,
          List.all_nil, Bool.and_true]
        exact hok
      · simp [handleAPIRequestNetwork, hf, hok]
    · simp [handleAPIRequestNetwork, hf, hok]

/-- The image network path stores only ok responses and never spawns
background writes. -/
theorem handleImageRequestNetwork_writes_ok (env : Env) (u : String)
    (co : Option Response) :
    ((handleImageRequestNetwork env u co).writes.all (fun w => w.response.ok) = true) ∧
    (handleImageRequestNetwork env u co).bgWrites = [] := by
  rcases hf : env.fetchResult u with _ | nr
  · rcases co with _ | c <;> simp [handleImageRequestNetwork, hf]
  · by_cases hok : nr.ok = true
    · constructor
      · simp only [handleImageRequestNetwork, hf, if_pos hok, List.all_cons,
          List.all_nil, Bool.and_true]
        exact hok
      · simp [handleImageRequestNetwork, hf, hok]
    · simp [handleImageRequestNetwork, hf, hok]

theorem apiNetwork_all_ok (env : Env) (u : String) (co : Option Response) :
    ((handleAPIRequestNetwork env u co).writes ++
      (handleAPIRequestNetwork env u co).bgWrites).all (fun w => w.response.ok) = true := by
  rcases handleAPIRequestNetwork_writes_ok env u co with ⟨h1, h2⟩
  rw [List.all_append, h2]
  simp [h1]

theorem imageNetwork_all_ok (env : Env) (u : String) (co : Option Response) :
    ((handleImageRequestNetwork env u co).writes ++
      (handleImageRequestNetwork env u co).bgWrites).all (fun w => w.response.ok) = true := by
  rcases handleImageRequestNetwork_writes_ok env u co with ⟨h1, h2⟩
  rw [List.all_append, h2]
  simp [h1]

/-- C9: every cache write performed by a strategy handler — awaited or
background — stores a response whose status was ok, so no partition ever
receives an error response from a handler; and a non-ok network response
reaching the network-first handler is returned to the caller with no
write performed. -/
theorem handlers_store_only_ok (env : Env) (req : Request) (s : CacheStorage) :
    (((handleAPIRequest env req s).writes ++ (handleAPIRequest env req s).bgWrites).all
        (fun w => w.response.ok) = true) ∧
    ((handleStaticAsset env req s).writes.all (fun w => w.response.ok) = true) ∧
    (((handleImageRequest env req s).writes ++ (handleImageRequest env req s).bgWrites).all
        (fun w => w.response.ok) = true) ∧
    ((handleDynamicRequest env req s).writes.all (fun w => w.response.ok) = true) ∧
    (∀ r, env.fetchResult req.url.href = some r → r.ok = false →
       (handleDynamicRequest env req s).result = .resp r ∧
       (handleDynamicRequest env req s).writes = []) := by
  refine ⟨?_, ?_, ?_, ?_, ?_⟩
  · by_cases hst : env.storageAvailable = true
    · rcases hm : Cache.matchReq (openCache s API_CACHE_NAME) req.url.href with _ | c
      · simp only [handleAPIRequest, hst, Bool.not_true, Bool.false_eq_true,
          if_false, hm]
        exact apiNetwork_all_ok env req.url.href none
      · by_cases hexp : isCacheExpired env.now c CACHE_DURATIONS.api = true
        · simp only [handleAPIRequest, hst, Bool.not_true, Bool.false_eq_true,
            if_false, hm, hexp, Bool.not_true]
          exact apiNetwork_all_ok env req.url.href (some c)
        · simp [handleAPIRequest, hst, hm, hexp, updateAPICache_ok]
    · have hst' : env.storageAvailable = false := by simpa using hst
      simp [handleAPIRequest, hst']
  · by_cases hst : env.storageAvailable = true
    · rcases hm : Cache.matchReq (openCache s STATIC_CACHE_NAME) req.url.href with _ | c
      · rcases hf : env.fetchResult req.url.href with _ | nr
        · by_cases hdoc : req.destination = "document"
          · rcases hidx : Cache.matchReq (openCache s STATIC_CACHE_NAME) "/index.html"
              with _ | fb <;>
              simp [handleStaticAsset, hst, hm, hf, beq_iff_eq, hdoc, hidx]
          · simp [handleStaticAsset, hst, hm, hf, beq_iff_eq, hdoc]
        · by_cases hok : nr.ok = true
          · simp [handleStaticAsset, hst, hm, hf, hok]
          · simp [handleStaticAsset, hst, hm, hf, hok]
      · simp [handleStaticAsset, hst, hm]
    · have hst' : env.storageAvailable = false := by simpa using hst
      simp [handleStaticAsset, hst']
  · by_cases hst : env.storageAvailable = true
    · rcases hm : Cache.matchReq (openCache s DYNAMIC_CACHE_NAME) req.url.href with _ | c
      · simp only [handleImageRequest, hst, Bool.not_true, Bool.false_eq_true,
          if_false, hm]
        exact imageNetwork_all_ok env req.url.href none
      · by_cases hexp : isCacheExpired env.now c CACHE_DURATIONS.images = true
        · simp only [handleImageRequest, hst, Bool.not_true, Bool.false_eq_true,
            if_false, hm, hexp, Bool.not_true]
          exact imageNetwork_all_ok env req.url.href (some c)
        · simp [handleImageRequest, hst, hm, hexp]
    · have hst' : env.storageAvailable = false := by simpa using hst
      simp [handleImageRequest, hst']
  · rcases hf : env.fetchResult req.url.href with _ | nr
    · simp [handleDynamicRequest, hf, handleDynamicCatch_writes]
    · by_cases hok : nr.ok = true
      · by_cases hst : env.storageAvailable = true
        · simp [handleDynamicRequest, hf, hok, hst]
        · have hst' : env.storageAvailable = false := by simpa using hst
          simp [handleDynamicRequest, hf, hok, hst', handleDynamicCatch_writes]
      · simp [handleDynamicRequest, hf, hok]
  · intro r hr hok
    constructor <;> simp [handleDynamicRequest, hr, hok]

/-- Witness for C9: a non-ok network response is returned by the dynamic
handler and nothing is written. -/
theorem handlers_store_only_ok_witness :
    (handleDynamicRequest envNonOk reqPlainDoc []).result = .resp respNonOk ∧
    (handleDynamicRequest envNonOk reqPlainDoc []).writes = [] :=
  (handlers_store_only_ok envNonOk reqPlainDoc []).2.2.2.2 respNonOk rfl (by decide)

/-- All writes of the background api refresh target the api partition. -/
theorem updateAPICache_names (env : Env) (u : String) :
    ∀ w ∈ updateAPICache env u, w.cacheName = API_CACHE_NAME := by
  rcases hf : env.fetchResult u with _ | r
  · simp [updateAPICache, hf]
  · by_cases hok : r.ok = true <;> simp [updateAPICache, hf, hok]

/-- All writes of the api network path target the api partition. -/
theorem apiNetwork_names (env : Env) (u : String) (co : Option Response) :
    ∀ w ∈ (handleAPIRequestNetwork env u co).writes ++
      (handleAPIRequestNetwork env u co).bgWrites, w.cacheName = API_CACHE_NAME := by
  rcases hf : env.fetchResult u with _ | nr
  · rcases co with _ | c <;> simp [handleAPIRequestNetwork, hf]
  · by_cases hok : nr.ok = true <;> simp [handleAPIRequestNetwork, hf, hok]

/-- All writes of the image network path target the dynamic partition. -/
theorem imageNetwork_names (env : Env) (u : String) (co : Option Response) :
    ∀ w ∈ (handleImageRequestNetwork env u co).writes ++
      (handleImageRequestNetwork env u co).bgWrites, w.cacheName = DYNAMIC_CACHE_NAME := by
  rcases hf : env.fetchResult u with _ | nr
  · rcases co with _ | c <;> simp [handleImageRequestNetwork, hf]
  · by_cases hok : nr.ok = true <;> simp [handleImageRequestNetwork, hf, hok]

/-- C6 amended: the handlers use exactly three pairwise distinct named
partitions. Api-class writes land in the api partition and static-class
writes in the static partition, but image-class writes land in the
dynamic partition — shared with dynamic-class writes — not in a
partition of their own. -/
theorem partition_targets (env : Env) (req : Request) (s : CacheStorage) :
    (∀ w ∈ (handleAPIRequest env req s).writes ++ (handleAPIRequest env req s).bgWrites,
       w.cacheName = API_CACHE_NAME) ∧
    (∀ w ∈ (handleStaticAsset env req s).writes, w.cacheName = STATIC_CACHE_NAME) ∧
    (∀ w ∈ (handleImageRequest env req s).writes, w.cacheName = DYNAMIC_CACHE_NAME) ∧
    (∀ w ∈ (handleDynamicRequest env req s).writes, w.cacheName = DYNAMIC_CACHE_NAME) ∧
    API_CACHE_NAME ≠ STATIC_CACHE_NAME ∧ API_CACHE_NAME ≠ DYNAMIC_CACHE_NAME ∧
    STATIC_CACHE_NAME ≠ DYNAMIC_CACHE_NAME := by
  refine ⟨?_, ?_, ?_, ?_, by decide, by decide, by decide⟩
  · by_cases hst : env.storageAvailable = true
    · rcases hm : Cache.matchReq (openCache s API_CACHE_NAME) req.url.href with _ | c
      · simp only [handleAPIRequest, hst, Bool.not_true, Bool.false_eq_true,
          if_false, hm]
        exact apiNetwork_names env req.url.href none
      · by_cases hexp : isCacheExpired env.now c CACHE_DURATIONS.api = true
        · simp only [handleAPIRequest, hst, Bool.not_true, Bool.false_eq_true,
            if_false, hm, hexp, Bool.not_true]
          exact apiNetwork_names env req.url.href (some c)
        · simp only [handleAPIRequest, hst, Bool.not_true, Bool.false_eq_true,
            if_false, hm, hexp, Bool.not_false, if_true, List.nil_append]
          exact updateAPICache_names env req.url.href
    · have hst' : env.storageAvailable = false := by simpa using hst
      simp [handleAPIRequest, hst']
  · by_cases hst : env.storageAvailable = true
    · rcases hm : Cache.matchReq (openCache s STATIC_CACHE_NAME) req.url.href with _ | c
      · rcases hf : env.fetchResult req.url.href with _ | nr
        · by_cases hdoc : req.destination = "document"
          · rcases hidx : Cache.matchReq (openCache s STATIC_CACHE_NAME) "/index.html"
              with _ | fb <;>
              simp [handleStaticAsset, hst, hm, hf, beq_iff_eq, hdoc, hidx]
          · simp [handleStaticAsset, hst, hm, hf, beq_iff_eq, hdoc]
        · by_cases hok : nr.ok = true <;> simp [handleStaticAsset, hst, hm, hf, hok]
      · simp [handleStaticAsset, hst, hm]
    · have hst' : env.storageAvailable = false := by simpa using hst
      simp [handleStaticAsset, hst']
  · by_cases hst : env.storageAvailable = true
    · rcases hm : Cache.matchReq (openCache s DYNAMIC_CACHE_NAME) req.url.href with _ | c
      · intro w hw
        exact imageNetwork_names env req.url.href none w
          (List.mem_append_left _ (by simpa [handleImageRequest, hst, hm] using hw))
      · by_cases hexp : isCacheExpired env.now c CACHE_DURATIONS.images = true
        · intro w hw
          exact imageNetwork_names env req.url.href (some c) w
            (List.mem_append_left _
              (by simpa [handleImageRequest, hst, hm, hexp] using hw))
        · simp [handleImageRequest, hst, hm, hexp]
    · have hst' : env.storageAvailable = false := by simpa using hst
      simp [handleImageRequest, hst']
  · rcases hf : env.fetchResult req.url.href with _ | nr
    · simp [handleDynamicRequest, hf, handleDynamicCatch_writes]
    · by_cases hok : nr.ok = true
      · by_cases hst : env.storageAvailable = true
        · simp [handleDynamicRequest, hf, hok, hst]
        · have hst' : env.storageAvailable = false := by simpa using hst
          simp [handleDynamicRequest, hf, hok, hst', handleDynamicCatch_writes]
      · simp [handleDynamicRequest, hf, hok]

/-- C6 counterexample: an image-class request and a dynamic-class
request are both stored into the same partition, `DYNAMIC_CACHE_NAME`,
so image-class entries do not live in a partition of their own. -/
theorem image_shares_dynamic_partition_counterexample :
    classify urlImage = .image ∧ classify urlPlain = .dynamic ∧
    (handleImageRequest envOnline reqImage []).writes.map Write.cacheName
      = [DYNAMIC_CACHE_NAME] ∧
    (handleDynamicRequest envOnline { url := urlPlain, destination := "" } []).writes.map
      Write.cacheName = [DYNAMIC_CACHE_NAME] := by
  decide

/-- Witness for C6 (amended): the concrete image-class write targets the
dynamic partition, whose name differs from the api partition name. -/
theorem partition_targets_witness :
    ({ cacheName := DYNAMIC_CACHE_NAME, key := urlImage.href,
       response := { respFreshNet with timestamp := some 600000 } } : Write).cacheName
      = DYNAMIC_CACHE_NAME ∧ API_CACHE_NAME ≠ DYNAMIC_CACHE_NAME :=
  ⟨(partition_targets envOnline reqImage []).2.2.1 _ (by decide),
   (partition_targets envOnline reqImage []).2.2.2.2.2.1⟩

/-- C10: the dynamic handler and prefetch store network responses
without adding the `sw-cache-timestamp` marker; `isCacheExpired` reports
every marker-less response expired for every max age; and the
maintenance sweep therefore deletes every marker-less entry of the
dynamic partition no matter how recently it was written. -/
theorem unmarked_entries_always_swept (env : Env) (req : Request) (s : CacheStorage)
    (urls : List String) :
    (∀ r, env.fetchResult req.url.href = some r → r.timestamp = none →
       ∀ w ∈ (handleDynamicRequest env req s).writes, w.response.timestamp = none) ∧
    ((∀ u r, env.fetchResult u = some r → r.timestamp = none) →
       ∀ w ∈ handlePrefetchUrls env urls, w.response.timestamp = none) ∧
    (∀ (now maxAge : Int) (r : Response), r.timestamp = none →
       isCacheExpired now r maxAge = true) ∧
    (env.storageAvailable = true →
       ∀ k r, r.timestamp = none →
         (k, r) ∉ openCache (periodicCleanup env s) DYNAMIC_CACHE_NAME) := by
  refine ⟨?_, ?_, ?_, ?_⟩
  · intro r hr ht w hw
    by_cases hok : r.ok = true
    · by_cases hst : env.storageAvailable = true
      · simp only [handleDynamicRequest, hr, if_pos hok, hst, if_true] at hw
        simp only [List.mem_singleton] at hw
        rw [hw]
        exact ht
      · have hst' : env.storageAvailable = false := by simpa using hst
        simp [handleDynamicRequest, hr, hok, hst', handleDynamicCatch_writes] at hw
    · simp only [handleDynamicRequest, hr, if_neg hok] at hw
      cases hw
  · intro hall w hw
    by_cases hst : env.storageAvailable = true
    · simp only [handlePrefetchUrls, hst, Bool.not_true, Bool.false_eq_true,
        if_false] at hw
      rcases List.mem_filterMap.mp hw with ⟨u, hu, hfu⟩
      rcases hf : env.fetchResult u with _ | r
      · simp only [hf] at hfu
        exact Option.noConfusion hfu
      · simp only [hf] at hfu
        by_cases hok : r.ok = true
        · rw [if_pos hok] at hfu
          cases hfu
          exact hall u r hf
        · rw [if_neg hok] at hfu
          cases hfu
    · have hst' : env.storageAvailable = false := by simpa using hst
      simp [handlePrefetchUrls, hst'] at hw
  · intro now maxAge r ht
    simp [isCacheExpired, ht]
  · intro hst k r ht hmem
    simp only [periodicCleanup, hst, Bool.not_true, Bool.false_eq_true,
      if_false] at hmem
    rw [openCache_putStore_self] at hmem
    have hpred := (List.mem_filter.mp hmem).2
    simp [isCacheExpired, ht] at hpred

/-- Witness for C10: a marker-less response is always expired, and a
concrete marker-less dynamic entry is gone after the sweep. -/
theorem unmarked_entries_always_swept_witness :
    isCacheExpired 0 respFreshNet 999999999 = true ∧
    ("https://example.com/page", respFreshNet) ∉
      openCache (periodicCleanup envOffline storeUnmarkedDyn) DYNAMIC_CACHE_NAME :=
  ⟨(unmarked_entries_always_swept envOffline reqPlainDoc storeUnmarkedDyn []).2.2.1
      0 999999999 respFreshNet rfl,
   (unmarked_entries_always_swept envOffline reqPlainDoc storeUnmarkedDyn []).2.2.2
      rfl "https://example.com/page" respFreshNet rfl⟩

/-- C5 counterexample: with `urlA` unreachable and `urlB` fetchable with
an ok response, the CACHE_UPDATE batch aborts as a whole — the resulting
storage is unchanged (empty), so the success of `urlB` is not recorded
and nothing is stored for it. -/
theorem cache_update_abort_counterexample :
    handleCacheUpdate envPartial DYNAMIC_CACHE_NAME [urlA, urlB] [] = [] ∧
    envPartial.fetchResult urlB = some respB ∧ respB.ok = true ∧
    envPartial.fetchResult urlA = none := by
  decide

/-- C5 amended: the update-cache command runs `cache.addAll`, which is
atomic per batch: if any listed URL fails to fetch with an ok response
the whole batch aborts, the error is caught and logged and the storage
is left unchanged, with no per-URL outcomes; only when every listed URL
fetches successfully are the entries stored — then all of them are. -/
theorem cache_update_atomicity (env : Env) (cacheName : String) (urls : List String)
    (s : CacheStorage) (hst : env.storageAvailable = true) :
    ((∃ u ∈ urls, ∀ r, env.fetchResult u = some r → r.ok = false) →
       handleCacheUpdate env cacheName urls s = s) ∧
    (∀ rs, addAllFetch env urls = some rs →
       ∀ u r, u ∈ urls → env.fetchResult u = some r →
         Cache.matchReq (openCache (handleCacheUpdate env cacheName urls s) cacheName) u
           = some r) := by
  constructor
  · rintro ⟨u, hu, hfail⟩
    have hnone := addAllFetch_none_of_fail env urls u hu hfail
    simp [handleCacheUpdate, hst, hnone]
  · intro rs hrs u r hu hr
    rcases addAllFetch_covers env urls rs hrs u hu with ⟨r', hr', hmem⟩
    rw [hr] at hr'
    have hrr : r = r' := Option.some.inj hr'
    subst hrr
    simp only [handleCacheUpdate, hst, Bool.not_true, Bool.false_eq_true,
      if_false, hrs]
    rw [openCache_putStore_self]
    refine storeAll_match_mem rs _ u r hmem ?_
    intro p hp hp1
    have hpm := (addAllFetch_mem env urls rs hrs p hp).1
    rw [hp1, hr] at hpm
    exact (Option.some.inj hpm).symm

/-- Witness for C5 (amended): one failing URL empties the whole batch,
and an all-ok batch stores every listed URL. -/
theorem cache_update_atomicity_witness :
    handleCacheUpdate envPartial DYNAMIC_CACHE_NAME [urlA, urlB] ([] : CacheStorage)
      = ([] : CacheStorage) ∧
    Cache.matchReq
      (openCache (handleCacheUpdate envAllB DYNAMIC_CACHE_NAME [urlA, urlB] [])
        DYNAMIC_CACHE_NAME) urlB = some respB := by
  constructor
  · refine (cache_update_atomicity envPartial DYNAMIC_CACHE_NAME [urlA, urlB] [] rfl).1
      ⟨urlA, by decide, ?_⟩
    intro r hr
    rw [show envPartial.fetchResult urlA = none by decide] at hr
    cases hr
  · exact (cache_update_atomicity envAllB DYNAMIC_CACHE_NAME [urlA, urlB] [] rfl).2
      [(urlA, respB), (urlB, respB)] (by decide) urlB respB (by decide) rfl

/-- C1: the hourly sweep applies the api max age (5 minutes) to the
dynamic partition as well — `CACHE_DURATIONS.dynamic` is never
consulted. A marked dynamic-partition entry ten minutes old, well within
the one-hour dynamic class policy, is nevertheless deleted. -/
theorem sweep_applies_api_duration_to_dynamic :
    isCacheExpired envOffline.now respYoung CACHE_DURATIONS.dynamic = false ∧
    isCacheExpired envOffline.now respYoung CACHE_DURATIONS.api = true ∧
    openCache (periodicCleanup envOffline storeYoungDynamic) DYNAMIC_CACHE_NAME = [] := by
  decide

end CryptoMonitorSW
